import Mathlib

/-
Verification of the descriptive-statistics / outlier / validation pipeline of the
genome-analysis repository.  Python sources embedded here:
  scripts/utils/genome_utils.py
  scripts/analysis/analyze_gene_distribution.py
  scripts/analysis/analyze_genome_stats.py
  scripts/analysis/validate_results.py
Numeric values are modelled as rationals; the one genuinely irrational operation
(the square root inside the standard deviation) is modelled over the reals.
Python floor division is modelled with Int.fdiv, and the Python round(x, 2)
builtin with a round-half-to-even function over the rationals.
-/

-- ==========================================================================
-- Percentile machinery (models numpy.percentile with the default linear
-- interpolation method: virtual position (n-1)*p/100 into the sorted data).
-- ==========================================================================

/-- Linear interpolation into a list at a fractional position, as performed by
numpy.percentile once the data is sorted: with i the floor of the position,
the result is s[i] + frac * (s[i+1] - s[i]), collapsing to s[i] when i is the
last index.  Out-of-range positions on the empty list yield 0 (numpy would
raise there; callers guard non-emptiness). -/
def interpolar (s : List ℚ) (pos : ℚ) : ℚ :=
  if (⌊pos⌋).toNat + 1 < s.length then
    s.getD (⌊pos⌋).toNat 0 +
      (pos - (((⌊pos⌋).toNat : ℕ) : ℚ)) *
        (s.getD ((⌊pos⌋).toNat + 1) 0 - s.getD (⌊pos⌋).toNat 0)
  else s.getD (⌊pos⌋).toNat 0

/-- Model of numpy.percentile(arr, p) with the default linear interpolation:
sort the data and interpolate at virtual position (n - 1) * p / 100. -/
def percentil (valores : List ℚ) (p : ℚ) : ℚ :=
  interpolar (List.insertionSort (fun a b => a ≤ b) valores)
    (((valores.length : ℚ) - 1) * p / 100)

-- ==========================================================================
-- Shared numeric helpers for the statistics engine
-- ==========================================================================

/-- Model of numpy.mean: sum divided by length (0/0 = 0 on the empty list,
which matches the NaN-free uses below since every caller guards emptiness). -/
def media (valores : List ℚ) : ℚ := valores.sum / (valores.length : ℚ)

/-- Model of numpy.var: population variance, the mean of squared deviations. -/
def varianza (valores : List ℚ) : ℚ :=
  ((valores.map (fun x => (x - media valores) ^ 2)).sum) / (valores.length : ℚ)

/-- Minimum of a list with an explicit default for the empty case (numpy.min
raises on an empty array; callers that can reach the empty case are modelled
with Option instead). -/
def minimo_de {α : Type} [LinearOrder α] : List α → α → α
  | [], d => d
  | x :: xs, _ => xs.foldl min x

/-- Maximum of a list with an explicit default for the empty case. -/
def maximo_de {α : Type} [LinearOrder α] : List α → α → α
  | [], d => d
  | x :: xs, _ => xs.foldl max x

/-- First occurrences of each distinct value, in input order.  This is the
iteration order of a Python Counter built from the list. -/
def primeras {α : Type} [DecidableEq α] : List α → List α
  | [] => []
  | x :: xs => x :: primeras (xs.filter (fun y => y ≠ x))
termination_by l => l.length
decreasing_by
  simp only [List.length_cons]
  exact Nat.lt_succ_of_le (List.length_filter_le _ _)

/-- Model of Counter(arr).most_common(1)[0][0]: the most frequent value, ties
broken in favour of the value encountered first in the input. -/
def moda_valor {α : Type} [DecidableEq α] (l : List α) : Option α :=
  match primeras l with
  | [] => none
  | c :: cs => some (cs.foldl (fun b x => if l.count x > l.count b then x else b) c)

/-- Round-half-to-even to an integer, the tie rule of the Python round builtin
(modelled at the rational level). -/
def round_half_even (q : ℚ) : ℤ :=
  if q - ⌊q⌋ < 1/2 then ⌊q⌋
  else if 1/2 < q - ⌊q⌋ then ⌊q⌋ + 1
  else if Even ⌊q⌋ then ⌊q⌋ else ⌊q⌋ + 1

/-- Model of the Python round(x, 2) builtin over the rationals. -/
def round2py (q : ℚ) : ℚ := ((round_half_even (q * 100) : ℤ) : ℚ) / 100

-- ==========================================================================
-- genome_utils.calcular_estadisticas_descriptivas
-- ==========================================================================

/-- Shape of the full dictionary returned by calcular_estadisticas_descriptivas
on non-empty input (genome_utils.py lines 112-127). -/
structure EstadisticasDescriptivas where
  total : ℕ
  media : ℚ
  mediana : ℚ
  moda : ℚ
  desviacion_std : ℝ
  varianza : ℚ
  minimo : ℚ
  maximo : ℚ
  rango : ℚ
  percentil_25 : ℚ
  percentil_50 : ℚ
  percentil_75 : ℚ
  percentil_95 : ℚ
  rango_intercuartil : ℚ

/-- Result of calcular_estadisticas_descriptivas: the source returns a
six-key dictionary of literal zeros for empty input (lines 102-110) and the
full statistics dictionary otherwise, so the result is a sum of those two
shapes. -/
inductive ResultadoEstadisticas where
  | vacio (total : ℕ) (media mediana desviacion_std minimo maximo : ℚ)
  | completo (stats : EstadisticasDescriptivas)

/-- Embedding of genome_utils.calcular_estadisticas_descriptivas: silently
returns a dictionary of zeroed fields on empty input, full statistics
otherwise.  numpy.median equals the 50th linear-interpolation percentile. -/
noncomputable def calcular_estadisticas_descriptivas (valores : List ℚ) :
    ResultadoEstadisticas :=
  if valores.length = 0 then
    ResultadoEstadisticas.vacio 0 0 0 0 0 0
  else
    ResultadoEstadisticas.completo
      { total := valores.length
        media := media valores
        mediana := percentil valores 50
        moda := (moda_valor valores).getD 0
        desviacion_std := Real.sqrt (varianza valores)
        varianza := varianza valores
        minimo := minimo_de valores 0
        maximo := maximo_de valores 0
        rango := maximo_de valores 0 - minimo_de valores 0
        percentil_25 := percentil valores 25
        percentil_50 := percentil valores 50
        percentil_75 := percentil valores 75
        percentil_95 := percentil valores 95
        rango_intercuartil := percentil valores 75 - percentil valores 25 }

-- ==========================================================================
-- genome_utils.identificar_outliers_iqr
-- ==========================================================================

/-- Dictionary returned by identificar_outliers_iqr (genome_utils.py
lines 170-180). -/
structure InfoOutliers where
  q1 : ℚ
  q3 : ℚ
  iqr : ℚ
  limite_inferior : ℚ
  limite_superior : ℚ
  num_outliers_bajos : ℕ
  num_outliers_altos : ℕ
  total_outliers : ℕ
  porcentaje_outliers : ℚ
deriving DecidableEq, Repr

/-- Embedding of genome_utils.identificar_outliers_iqr.  On empty input
numpy.percentile raises, modelled as none.  The function never mutates its
argument (it is a pure computation here as in the source, which only reads
the array).  Both outlier counts are strict comparisons against the fences,
exactly as in the source (arr < limite_inferior, arr > limite_superior). -/
def identificar_outliers_iqr (valores : List ℚ) (multiplicador : ℚ) :
    Option InfoOutliers :=
  if valores = [] then none
  else
    let q1 := percentil valores 25
    let q3 := percentil valores 75
    let iqr := q3 - q1
    let limite_inferior := q1 - multiplicador * iqr
    let limite_superior := q3 + multiplicador * iqr
    let bajos := valores.countP (fun x => decide (x < limite_inferior))
    let altos := valores.countP (fun x => decide (x > limite_superior))
    some
      { q1 := q1
        q3 := q3
        iqr := iqr
        limite_inferior := limite_inferior
        limite_superior := limite_superior
        num_outliers_bajos := bajos
        num_outliers_altos := altos
        total_outliers := bajos + altos
        porcentaje_outliers :=
          if 0 < valores.length then
            ((bajos + altos : ℕ) : ℚ) / (valores.length : ℚ) * 100
          else 0 }

/-- Total outlier count reported for a list at a given fence multiplier
(0 when the computation fails on empty input). -/
def total_outliers_en (valores : List ℚ) (multiplicador : ℚ) : ℕ :=
  (identificar_outliers_iqr valores multiplicador).elim 0
    (fun r => r.total_outliers)

-- ==========================================================================
-- genome_utils.validar_valor_esperado and genome_utils.validar_rango
-- ==========================================================================

/-- Dictionary returned by validar_valor_esperado (genome_utils.py
lines 202-210). -/
structure ResultadoValidacion where
  obtenido : ℚ
  esperado : ℚ
  diferencia : ℚ
  desviacion_pct : ℚ
  tolerancia : ℚ
  valido : Bool
  status : String
deriving DecidableEq, Repr

/-- Embedding of genome_utils.validar_valor_esperado.  The pass flag compares
the unrounded absolute difference against the tolerance; the reported
obtenido, diferencia and desviacion_pct fields are rounded to two decimals
with the Python round builtin. -/
def validar_valor_esperado (obtenido esperado tolerancia : ℚ) :
    ResultadoValidacion :=
  let diferencia := |obtenido - esperado|
  let en_rango := decide (diferencia ≤ tolerancia)
  let desviacion_pct := if esperado ≠ 0 then diferencia / esperado * 100 else 0
  { obtenido := round2py obtenido
    esperado := esperado
    diferencia := round2py diferencia
    desviacion_pct := round2py desviacion_pct
    tolerancia := tolerancia
    valido := en_rango
    status := if en_rango then "✅ VÁLIDO" else "⚠️ FUERA DE RANGO" }

/-- Dictionary returned by validar_rango (genome_utils.py lines 226-232). -/
structure ResultadoRango where
  obtenido : ℚ
  rango_min : ℚ
  rango_max : ℚ
  valido : Bool
  status : String
deriving DecidableEq, Repr

/-- Embedding of genome_utils.validar_rango: inclusive range check
rango_min <= obtenido <= rango_max. -/
def validar_rango (obtenido rango_min rango_max : ℚ) : ResultadoRango :=
  let en_rango := decide (rango_min ≤ obtenido ∧ obtenido ≤ rango_max)
  { obtenido := round2py obtenido
    rango_min := rango_min
    rango_max := rango_max
    valido := en_rango
    status := if en_rango then "✅ DENTRO DEL RANGO" else "⚠️ FUERA DEL RANGO" }

-- ==========================================================================
-- Genome record and feature model (the slice of the BioPython SeqRecord API
-- that the analysis scripts read).
-- ==========================================================================

/-- Annotated feature: kind tag, location interval, strand (1, -1, 0 or
absent, hence Option) and the qualifier table.  The scripts only ever read
entry [0] of each qualifier value list, so the table stores that first entry
per qualifier name. -/
structure Feature where
  tipo : String
  inicio : ℤ
  fin : ℤ
  strand : Option ℤ
  qualifiers : List (String × String)
deriving DecidableEq, Repr

/-- Genome record: identifier, nucleotide sequence and ordered feature list. -/
structure SeqRecord where
  id : String
  seq : List Char
  features : List Feature
deriving DecidableEq, Repr

/-- Model of feature.qualifiers.get(nombre, [defecto])[0]. -/
def getQualifier (f : Feature) (nombre defecto : String) : String :=
  (f.qualifiers.lookup nombre).getD defecto

-- ==========================================================================
-- analyze_gene_distribution.extraer_info_genes_completa
-- ==========================================================================

/-- Dictionary built per CDS feature by extraer_info_genes_completa
(analyze_gene_distribution.py lines 57-67). -/
structure CDSInfo where
  locus_tag : String
  gene : String
  producto : String
  inicio : ℤ
  fin : ℤ
  longitud_nt : ℤ
  longitud_aa : ℤ
  strand : String
  protein_id : String
deriving DecidableEq, Repr

/-- Loop body of extraer_info_genes_completa: emits a CDSInfo for a CDS-kind
feature and nothing otherwise.  Lengths are taken directly as fin - inicio
with no well-formedness check, and the protein length uses Python floor
division by 3. -/
def procesar_cds (f : Feature) : Option CDSInfo :=
  if f.tipo = "CDS" then
    some
      { locus_tag := getQualifier f "locus_tag" "NA"
        gene := getQualifier f "gene" "NA"
        producto := getQualifier f "product" "Unknown"
        inicio := f.inicio
        fin := f.fin
        longitud_nt := f.fin - f.inicio
        longitud_aa := Int.fdiv (f.fin - f.inicio) 3
        strand := if f.strand = some 1 then "+" else "-"
        protein_id := getQualifier f "protein_id" "NA" }
  else none

/-- Embedding of analyze_gene_distribution.extraer_info_genes_completa:
one CDSInfo per CDS feature, in feature order. -/
def extraer_info_genes_completa (record : SeqRecord) : List CDSInfo :=
  record.features.filterMap procesar_cds

-- ==========================================================================
-- analyze_gene_distribution.calcular_estadisticas_avanzadas
-- ==========================================================================

/-- Dictionary returned by calcular_estadisticas_avanzadas
(analyze_gene_distribution.py lines 83-102).  The min, max and range fields
pass through the Python int builtin, exact on the integer inputs used. -/
structure EstadisticasAvanzadas where
  total : ℕ
  media : ℚ
  mediana : ℚ
  moda : ℚ
  desviacion_std : ℝ
  varianza : ℚ
  minimo : ℤ
  maximo : ℤ
  rango : ℤ
  percentil_5 : ℚ
  percentil_10 : ℚ
  percentil_25 : ℚ
  percentil_50 : ℚ
  percentil_75 : ℚ
  percentil_90 : ℚ
  percentil_95 : ℚ
  rango_intercuartil : ℚ
  coef_variacion : ℝ

/-- Embedding of analyze_gene_distribution.calcular_estadisticas_avanzadas
over the integer length lists it is called with.  On empty input numpy.min
raises (modelled as none); otherwise every field is computed as in the
source, and the coefficient of variation is std/mean*100 guarded by the
strict test mean > 0 from the source. -/
noncomputable def calcular_estadisticas_avanzadas (longitudes : List ℤ) :
    Option EstadisticasAvanzadas :=
  let arr := longitudes.map (fun x => (x : ℚ))
  if longitudes = [] then none
  else
    some
      { total := longitudes.length
        media := media arr
        mediana := percentil arr 50
        moda := (moda_valor arr).getD 0
        desviacion_std := Real.sqrt (varianza arr)
        varianza := varianza arr
        minimo := minimo_de longitudes 0
        maximo := maximo_de longitudes 0
        rango := maximo_de longitudes 0 - minimo_de longitudes 0
        percentil_5 := percentil arr 5
        percentil_10 := percentil arr 10
        percentil_25 := percentil arr 25
        percentil_50 := percentil arr 50
        percentil_75 := percentil arr 75
        percentil_90 := percentil arr 90
        percentil_95 := percentil arr 95
        rango_intercuartil := percentil arr 75 - percentil arr 25
        coef_variacion :=
          if 0 < media arr then
            Real.sqrt (varianza arr) / ((media arr : ℚ) : ℝ) * 100
          else 0 }

/-- Mean field of an advanced-statistics result, 0 when the computation
failed. -/
noncomputable def media_of (o : Option EstadisticasAvanzadas) : ℚ :=
  o.elim 0 (fun r => r.media)

/-- Standard-deviation field of an advanced-statistics result, 0 when the
computation failed. -/
noncomputable def std_of (o : Option EstadisticasAvanzadas) : ℝ :=
  o.elim 0 (fun r => r.desviacion_std)

/-- Coefficient-of-variation field of an advanced-statistics result, 0 when
the computation failed. -/
noncomputable def cv_of (o : Option EstadisticasAvanzadas) : ℝ :=
  o.elim 0 (fun r => r.coef_variacion)

-- ==========================================================================
-- analyze_gene_distribution.categorizar_por_tamano
-- ==========================================================================

/-- The five size-band member lists built by categorizar_por_tamano
(analyze_gene_distribution.py lines 114-136). -/
structure Categorias where
  muy_pequenos : List CDSInfo
  pequenos : List CDSInfo
  medianos : List CDSInfo
  grandes : List CDSInfo
  muy_grandes : List CDSInfo
deriving DecidableEq, Repr

/-- Embedding of analyze_gene_distribution.categorizar_por_tamano: the
if/elif chain on longitud_nt with thresholds 300, 600, 1200, 2400, appending
each record to exactly one band in input order. -/
def categorizar_por_tamano : List CDSInfo → Categorias
  | [] => ⟨[], [], [], [], []⟩
  | cds :: resto =>
    let cat := categorizar_por_tamano resto
    if cds.longitud_nt < 300 then { cat with muy_pequenos := cds :: cat.muy_pequenos }
    else if cds.longitud_nt < 600 then { cat with pequenos := cds :: cat.pequenos }
    else if cds.longitud_nt < 1200 then { cat with medianos := cds :: cat.medianos }
    else if cds.longitud_nt < 2400 then { cat with grandes := cds :: cat.grandes }
    else { cat with muy_grandes := cds :: cat.muy_grandes }

-- ==========================================================================
-- analyze_genome_stats.extraer_genes_completos
-- ==========================================================================

/-- Complement of a nucleotide character (identity on anything else). -/
def complemento (c : Char) : Char :=
  if c = 'A' then 'T'
  else if c = 'T' then 'A'
  else if c = 'G' then 'C'
  else if c = 'C' then 'G'
  else c

/-- Model of feature.extract(record.seq): the slice [inicio, fin) of the
sequence, reverse-complemented when the feature lies on the minus strand. -/
def extraer_secuencia (seq : List Char) (f : Feature) : List Char :=
  let sub := (seq.drop f.inicio.toNat).take (f.fin - f.inicio).toNat
  if f.strand = some (-1) then (sub.map complemento).reverse else sub

/-- Simplified model of Bio.SeqUtils.gc_fraction: fraction of G/C characters
(ambiguous nucleotide codes ignored).  No verified claim depends on this
value. -/
def gc_fraction_aprox (s : List Char) : ℚ :=
  if s.length = 0 then 0
  else ((s.countP (fun c => decide (c = 'G' ∨ c = 'C' ∨ c = 'g' ∨ c = 'c'))) : ℚ) /
    (s.length : ℚ)

/-- Dictionary built per gene feature by extraer_genes_completos
(analyze_genome_stats.py lines 64-71). -/
structure GeneInfo where
  tipo : String
  inicio : ℤ
  fin : ℤ
  longitud : ℤ
  strand : String
  locus_tag : String
deriving DecidableEq, Repr

/-- Dictionary built per CDS feature by extraer_genes_completos
(analyze_genome_stats.py lines 82-92). -/
structure CDSStatsInfo where
  tipo : String
  inicio : ℤ
  fin : ℤ
  longitud : ℤ
  strand : String
  producto : String
  locus_tag : String
  gc_content : ℚ
  protein_id : String
deriving DecidableEq, Repr

/-- Gene branch of the extraer_genes_completos loop. -/
def procesar_gene (f : Feature) : Option GeneInfo :=
  if f.tipo = "gene" then
    some
      { tipo := "gene"
        inicio := f.inicio
        fin := f.fin
        longitud := f.fin - f.inicio
        strand := if f.strand = some 1 then "+" else "-"
        locus_tag := getQualifier f "locus_tag" "NA" }
  else none

/-- CDS branch of the extraer_genes_completos loop. -/
def procesar_cds_stats (seq : List Char) (f : Feature) : Option CDSStatsInfo :=
  if f.tipo = "CDS" then
    some
      { tipo := "CDS"
        inicio := f.inicio
        fin := f.fin
        longitud := f.fin - f.inicio
        strand := if f.strand = some 1 then "+" else "-"
        producto := getQualifier f "product" "Unknown"
        locus_tag := getQualifier f "locus_tag" "NA"
        gc_content := gc_fraction_aprox (extraer_secuencia seq f) * 100
        protein_id := getQualifier f "protein_id" "NA" }
  else none

/-- The two parallel outputs of extraer_genes_completos. -/
structure GenesYCds where
  genes : List GeneInfo
  cds : List CDSStatsInfo
deriving DecidableEq, Repr

/-- Embedding of analyze_genome_stats.extraer_genes_completos: one pass over
the features, emitting the gene records and the CDS records in feature
order. -/
def extraer_genes_completos (record : SeqRecord) : GenesYCds :=
  { genes := record.features.filterMap procesar_gene
    cds := record.features.filterMap (procesar_cds_stats record.seq) }

-- ==========================================================================
-- validate_results: evolutionary-preference classifier
-- ==========================================================================

/-- Embedding of the stop-codon preference loop body in validate_results.main
(lines 246-265): enrichment is the CDS usage fraction over the whole-genome
fraction, taken as 0 when the genome fraction is not positive, then
classified by the strict thresholds of the if/elif chain. -/
def analizar_preferencia (cds_pct genoma_pct : ℚ) : ℚ × String :=
  let enriquecimiento := if genoma_pct > 0 then cds_pct / genoma_pct else 0
  let preferencia :=
    if enriquecimiento > 1.2 then "⭐ FUERTEMENTE PREFERIDO"
    else if enriquecimiento > 0.8 then "○ NEUTRAL"
    else "❌ EVITADO"
  (enriquecimiento, preferencia)

-- ==========================================================================
-- Concrete fixtures used by counterexamples and witnesses
-- ==========================================================================

/-- A CDS feature with a malformed location: start 10, end 5. -/
def feature_malformada : Feature := ⟨"CDS", 10, 5, none, []⟩

/-- A record whose single feature is the malformed CDS. -/
def registro_malformado : SeqRecord := ⟨"X", [], [feature_malformada]⟩

/-- The derived record the extractor emits for the malformed CDS. -/
def cds_malformado : CDSInfo := ⟨"NA", "NA", "Unknown", 10, 5, -5, -2, "-", "NA"⟩

/-- A well-formed CDS feature whose strand annotation is absent. -/
def feature_sin_strand : Feature := ⟨"CDS", 0, 3, none, []⟩

/-- The derived record the extractor emits for the strand-less CDS. -/
def cds_sin_strand : CDSInfo := ⟨"NA", "NA", "Unknown", 0, 3, 3, 1, "-", "NA"⟩

/-- A synthetic CDS record of a given nucleotide length. -/
def cds_de_longitud (n : ℤ) : CDSInfo :=
  ⟨"NA", "NA", "Unknown", 0, n, n, Int.fdiv n 3, "+", "NA"⟩

/-- The synthetic length list of the specification end-to-end scenario. -/
def lista_cds_prueba : List CDSInfo :=
  [cds_de_longitud 90, cds_de_longitud 150, cds_de_longitud 300, cds_de_longitud 600,
   cds_de_longitud 900, cds_de_longitud 1200, cds_de_longitud 2400, cds_de_longitud 3000,
   cds_de_longitud 4500]

-- ==========================================================================
-- Lemmas about the percentile machinery
-- ==========================================================================

lemma sorted_getD_le (s : List ℚ) (hs : s.Sorted (fun a b => a ≤ b))
    (i j : ℕ) (hij : i ≤ j) (hj : j < s.length) : s.getD i 0 ≤ s.getD j 0 := by
  have hi : i < s.length := lt_of_le_of_lt hij hj
  have h := hs.rel_get_of_le (a := ⟨i, hi⟩) (b := ⟨j, hj⟩) hij
  rw [List.getD_eq_getElem?_getD, List.getD_eq_getElem?_getD,
    List.getElem?_eq_getElem hi, List.getElem?_eq_getElem hj]
  simpa [List.get] using h

lemma floor_toNat_cast_eq (q : ℚ) (h : 0 ≤ q) :
    (((⌊q⌋).toNat : ℕ) : ℚ) = (⌊q⌋ : ℚ) := by
  have h2 : ((⌊q⌋).toNat : ℤ) = ⌊q⌋ := Int.toNat_of_nonneg (Int.floor_nonneg.mpr h)
  exact_mod_cast h2

lemma interpolar_lower (s : List ℚ) (hs : s.Sorted (fun a b => a ≤ b))
    (pos : ℚ) (h0 : 0 ≤ pos) :
    s.getD (⌊pos⌋).toNat 0 ≤ interpolar s pos := by
  unfold interpolar
  by_cases hcase : (⌊pos⌋).toNat + 1 < s.length
  · simp only [hcase, if_true]
    have hfrac : 0 ≤ pos - (((⌊pos⌋).toNat : ℕ) : ℚ) := by
      rw [floor_toNat_cast_eq pos h0]
      linarith [Int.floor_le pos]
    have hmono : s.getD (⌊pos⌋).toNat 0 ≤ s.getD ((⌊pos⌋).toNat + 1) 0 :=
      sorted_getD_le s hs _ _ (Nat.le_succ _) hcase
    linarith [mul_nonneg hfrac (sub_nonneg.mpr hmono)]
  · simp [hcase]

lemma interpolar_upper (s : List ℚ) (hs : s.Sorted (fun a b => a ≤ b))
    (pos : ℚ) (h0 : 0 ≤ pos) (h1 : (⌊pos⌋).toNat + 1 < s.length) :
    interpolar s pos ≤ s.getD ((⌊pos⌋).toNat + 1) 0 := by
  unfold interpolar
  simp only [h1, if_true]
  have hfrac : pos - (((⌊pos⌋).toNat : ℕ) : ℚ) ≤ 1 := by
    rw [floor_toNat_cast_eq pos h0]
    linarith [Int.lt_floor_add_one pos]
  have hmono : s.getD (⌊pos⌋).toNat 0 ≤ s.getD ((⌊pos⌋).toNat + 1) 0 :=
    sorted_getD_le s hs _ _ (Nat.le_succ _) h1
  nlinarith [sub_nonneg.mpr hmono]

lemma interpolar_mono (s : List ℚ) (hs : s.Sorted (fun a b => a ≤ b))
    (p1 p2 : ℚ) (h0 : 0 ≤ p1) (h12 : p1 ≤ p2) (hn : p2 ≤ (s.length : ℚ) - 1) :
    interpolar s p1 ≤ interpolar s p2 := by
  have h02 : 0 ≤ p2 := le_trans h0 h12
  have hi12 : (⌊p1⌋).toNat ≤ (⌊p2⌋).toNat :=
    Int.toNat_le_toNat (Int.floor_le_floor h12)
  have hi2lt : (⌊p2⌋).toNat < s.length := by
    have hfl : ((⌊p2⌋).toNat : ℚ) ≤ (s.length : ℚ) - 1 := by
      rw [floor_toNat_cast_eq p2 h02]
      exact le_trans (Int.floor_le p2) hn
    have : ((⌊p2⌋).toNat : ℚ) < (s.length : ℚ) := by linarith
    exact_mod_cast this
  rcases Nat.lt_or_ge (⌊p1⌋).toNat (⌊p2⌋).toNat with hlt | hge
  · -- floors differ: chain through the sorted entries between them
    have hstep : (⌊p1⌋).toNat + 1 < s.length := lt_of_le_of_lt hlt hi2lt
    have h1 : interpolar s p1 ≤ s.getD ((⌊p1⌋).toNat + 1) 0 :=
      interpolar_upper s hs p1 h0 hstep
    have h2 : s.getD ((⌊p1⌋).toNat + 1) 0 ≤ s.getD (⌊p2⌋).toNat 0 :=
      sorted_getD_le s hs _ _ hlt hi2lt
    have h3 : s.getD (⌊p2⌋).toNat 0 ≤ interpolar s p2 :=
      interpolar_lower s hs p2 h02
    linarith
  · -- same floor index: both interpolations live on the same segment
    have heq : (⌊p2⌋).toNat = (⌊p1⌋).toNat := le_antisymm hge hi12
    unfold interpolar
    rw [heq]
    by_cases hcase : (⌊p1⌋).toNat + 1 < s.length
    · simp only [hcase, if_true]
      have hmono : s.getD (⌊p1⌋).toNat 0 ≤ s.getD ((⌊p1⌋).toNat + 1) 0 :=
        sorted_getD_le s hs _ _ (Nat.le_succ _) hcase
      nlinarith [mul_nonneg (sub_nonneg.mpr h12) (sub_nonneg.mpr hmono)]
    · simp [hcase]

lemma percentil_mono (l : List ℚ) (hl : l ≠ []) (p q : ℚ)
    (h0 : 0 ≤ p) (hpq : p ≤ q) (h100 : q ≤ 100) :
    percentil l p ≤ percentil l q := by
  unfold percentil
  have hs : (List.insertionSort (fun a b => a ≤ b) l).Sorted (fun a b => a ≤ b) :=
    List.sorted_insertionSort _ l
  have hlen : (1 : ℚ) ≤ (l.length : ℚ) := by
    have : 1 ≤ l.length := List.length_pos.mpr hl
    exact_mod_cast this
  have hslen : ((List.insertionSort (fun a b => a ≤ b) l).length : ℚ) = (l.length : ℚ) := by
    have := (List.perm_insertionSort (fun a b => a ≤ b) l).length_eq
    exact_mod_cast this
  have hnn : 0 ≤ (l.length : ℚ) - 1 := by linarith
  apply interpolar_mono _ hs
  · exact div_nonneg (mul_nonneg hnn h0) (by norm_num)
  · have := mul_le_mul_of_nonneg_left hpq hnn
    linarith
  · rw [hslen]
    calc ((l.length : ℚ) - 1) * q / 100 ≤ ((l.length : ℚ) - 1) * 100 / 100 := by
          have := mul_le_mul_of_nonneg_left h100 hnn
          linarith
      _ = (l.length : ℚ) - 1 := by ring

lemma q1_le_q3 (l : List ℚ) (hl : l ≠ []) : percentil l 25 ≤ percentil l 75 :=
  percentil_mono l hl 25 75 (by norm_num) (by norm_num) (by norm_num)

-- ==========================================================================
-- Claim theorems
-- ==========================================================================

/-- C1 counterexample: at enrichment exactly 0.8 (subset fraction 4/5 against
baseline 1) the classifier emits the avoided label, not the neutral label the
claim requires at an inclusive lower boundary. -/
theorem C1_borde_0_8_evitado :
    (analizar_preferencia (4/5) 1).1 = 0.8 ∧
    (analizar_preferencia (4/5) 1).2 = "❌ EVITADO" ∧
    (analizar_preferencia (4/5) 1).2 ≠ "○ NEUTRAL" := by
  have h1 : (analizar_preferencia (4/5) 1).1 = 0.8 := by
    show (if (1 : ℚ) > 0 then (4/5 : ℚ) / 1 else 0) = 0.8
    rw [if_pos (by norm_num)]
    norm_num
  have h2 : (analizar_preferencia (4/5) 1).2 =
      (if (analizar_preferencia (4/5) 1).1 > 1.2 then "⭐ FUERTEMENTE PREFERIDO"
       else if (analizar_preferencia (4/5) 1).1 > 0.8 then "○ NEUTRAL"
       else "❌ EVITADO") := rfl
  have h3 : (analizar_preferencia (4/5) 1).2 = "❌ EVITADO" := by
    rw [h2, h1, if_neg (by norm_num), if_neg (by norm_num)]
  exact ⟨h1, h3, by rw [h3]; decide⟩

/-- C1 (amended): the classifier computes enrichment = subset/baseline
(0 when the baseline is 0), labels preferred strictly above 1.2, neutral on
the half-open interval (0.8, 1.2], and avoided at or below 0.8 — so exactly
1.2 is neutral but exactly 0.8 is avoided, not neutral. -/
theorem C1_clasificador_enriquecimiento (cds_pct genoma_pct : ℚ) :
    (0 < genoma_pct → (analizar_preferencia cds_pct genoma_pct).1 = cds_pct / genoma_pct) ∧
    (genoma_pct = 0 → (analizar_preferencia cds_pct genoma_pct).1 = 0) ∧
    ((analizar_preferencia cds_pct genoma_pct).2 = "⭐ FUERTEMENTE PREFERIDO" ↔
      1.2 < (analizar_preferencia cds_pct genoma_pct).1) ∧
    ((analizar_preferencia cds_pct genoma_pct).2 = "○ NEUTRAL" ↔
      0.8 < (analizar_preferencia cds_pct genoma_pct).1 ∧
        (analizar_preferencia cds_pct genoma_pct).1 ≤ 1.2) ∧
    ((analizar_preferencia cds_pct genoma_pct).2 = "❌ EVITADO" ↔
      (analizar_preferencia cds_pct genoma_pct).1 ≤ 0.8) := by
  have h1 : (analizar_preferencia cds_pct genoma_pct).1 =
      if genoma_pct > 0 then cds_pct / genoma_pct else 0 := rfl
  have h2 : (analizar_preferencia cds_pct genoma_pct).2 =
      (if (analizar_preferencia cds_pct genoma_pct).1 > 1.2 then "⭐ FUERTEMENTE PREFERIDO"
       else if (analizar_preferencia cds_pct genoma_pct).1 > 0.8 then "○ NEUTRAL"
       else "❌ EVITADO") := rfl
  rw [h2]
  refine ⟨?_, ?_, ?_, ?_, ?_⟩
  · intro hb
    rw [h1, if_pos hb]
  · intro hb
    rw [h1, if_neg (by rw [hb]; exact lt_irrefl 0)]
  · by_cases ha : (analizar_preferencia cds_pct genoma_pct).1 > 1.2
    · rw [if_pos ha]
      exact iff_of_true rfl ha
    · rw [if_neg ha]
      by_cases hb : (analizar_preferencia cds_pct genoma_pct).1 > 0.8
      · rw [if_pos hb]
        exact iff_of_false (by decide) ha
      · rw [if_neg hb]
        exact iff_of_false (by decide) ha
  · by_cases ha : (analizar_preferencia cds_pct genoma_pct).1 > 1.2
    · rw [if_pos ha]
      exact iff_of_false (by decide) (fun h => absurd ha (not_lt.mpr h.2))
    · rw [if_neg ha]
      by_cases hb : (analizar_preferencia cds_pct genoma_pct).1 > 0.8
      · rw [if_pos hb]
        exact iff_of_true rfl ⟨hb, not_lt.mp ha⟩
      · rw [if_neg hb]
        exact iff_of_false (by decide) (fun h => absurd h.1 hb)
  · by_cases ha : (analizar_preferencia cds_pct genoma_pct).1 > 1.2
    · rw [if_pos ha]
      refine iff_of_false (by decide) (fun h => ?_)
      have : (1.2 : ℚ) < 0.8 := lt_of_lt_of_le ha h
      norm_num at this
    · rw [if_neg ha]
      by_cases hb : (analizar_preferencia cds_pct genoma_pct).1 > 0.8
      · rw [if_pos hb]
        exact iff_of_false (by decide) (fun h => absurd hb (not_lt.mpr h))
      · rw [if_neg hb]
        exact iff_of_true rfl (not_lt.mp hb)

/-- C1 witness: the amended theorem applied at subset fraction 1 and baseline
2 gives enrichment 1/2. -/
theorem C1_clasificador_enriquecimiento_witness :
    (0 : ℚ) < 2 ∧ (analizar_preferencia 1 2).1 = 1 / 2 :=
  ⟨by norm_num, (C1_clasificador_enriquecimiento 1 2).1 (by norm_num)⟩

/-- C2 counterexample: on empty input the descriptive helper silently returns
the zeroed six-field dictionary while the advanced helper fails, so the two
helpers neither fail uniformly nor raise any EmptyInputError (no such
exception exists in the source). -/
theorem C2_entrada_vacia_no_uniforme :
    calcular_estadisticas_descriptivas [] = ResultadoEstadisticas.vacio 0 0 0 0 0 0 ∧
    calcular_estadisticas_avanzadas ([] : List ℤ) = none :=
  ⟨rfl, rfl⟩

/-- C2 (amended): on an empty sequence the descriptive-statistics helper
returns zeroed fields without failing, while the advanced-statistics helper
fails — and fails exactly on empty input; the empty-input policies of the two
helpers are therefore inconsistent and neither involves an EmptyInputError. -/
theorem C2_politica_entrada_vacia :
    calcular_estadisticas_descriptivas [] = ResultadoEstadisticas.vacio 0 0 0 0 0 0 ∧
    ∀ longitudes : List ℤ,
      (calcular_estadisticas_avanzadas longitudes = none ↔ longitudes = []) := by
  refine ⟨rfl, ?_⟩
  intro l
  cases l <;> simp [calcular_estadisticas_avanzadas]

/-- C3 counterexample: a record whose single CDS feature has start 10 and end
5 is processed without any error; extraction emits a derived record with
nucleotide length -5. -/
theorem C3_longitud_negativa_emitida :
    extraer_info_genes_completa registro_malformado = [cds_malformado] ∧
    cds_malformado.longitud_nt = -5 ∧ (-5 : ℤ) < 0 :=
  ⟨rfl, rfl, by decide⟩

/-- C3 (amended): the extractor performs no location validation at all: for
every CDS feature of a record, including those with start greater than end,
it emits a derived record whose nucleotide length is exactly end minus start
(hence negative for malformed locations) instead of failing. -/
theorem C3_extraccion_sin_validacion (record : SeqRecord) (f : Feature)
    (hf : f ∈ record.features) (ht : f.tipo = "CDS") :
    ∃ c ∈ extraer_info_genes_completa record,
      c.inicio = f.inicio ∧ c.fin = f.fin ∧ c.longitud_nt = f.fin - f.inicio := by
  refine ⟨⟨getQualifier f "locus_tag" "NA", getQualifier f "gene" "NA",
    getQualifier f "product" "Unknown", f.inicio, f.fin, f.fin - f.inicio,
    Int.fdiv (f.fin - f.inicio) 3, if f.strand = some 1 then "+" else "-",
    getQualifier f "protein_id" "NA"⟩, ?_, rfl, rfl, rfl⟩
  exact List.mem_filterMap.mpr ⟨f, hf, by simp [procesar_cds, ht]⟩

/-- C3 witness: the amended theorem applied to the malformed single-feature
record exhibits the emitted record of length -5. -/
theorem C3_extraccion_sin_validacion_witness :
    feature_malformada ∈ registro_malformado.features ∧
    feature_malformada.tipo = "CDS" ∧
    ∃ c ∈ extraer_info_genes_completa registro_malformado,
      c.inicio = feature_malformada.inicio ∧ c.fin = feature_malformada.fin ∧
        c.longitud_nt = feature_malformada.fin - feature_malformada.inicio :=
  ⟨List.mem_singleton.mpr rfl, rfl,
    C3_extraccion_sin_validacion registro_malformado feature_malformada
      (List.mem_singleton.mpr rfl) rfl⟩

/-- C5 counterexample: the reported difference field is rounded to two
decimals, so at observed 1/1000, expected 3 it equals 3, not the exact
absolute difference 2999/1000 the claim asserts. -/
theorem C5_diferencia_redondeada :
    (validar_valor_esperado (1/1000) 3 1).diferencia ≠ |(1/1000 : ℚ) - 3| := by
  have h : (validar_valor_esperado (1/1000) 3 1).diferencia =
      round2py |(1/1000 : ℚ) - 3| := rfl
  have habs : |(1/1000 : ℚ) - 3| = 2999/1000 := by
    rw [abs_of_nonpos (by norm_num)]
    norm_num
  have harg : (2999/1000 : ℚ) * 100 = 2999/10 := by norm_num
  have hfloor : ⌊(2999/10 : ℚ)⌋ = 299 := by norm_num
  have hrhe : round_half_even ((2999/1000 : ℚ) * 100) = 300 := by
    unfold round_half_even
    rw [harg, hfloor, if_neg (by norm_num), if_pos (by norm_num)]
    norm_num
  rw [h, habs]
  unfold round2py
  rw [hrhe]
  norm_num

/-- C5 (amended): tolerance-mode validation reports the absolute difference
and the deviation percentage rounded to two decimals (Python round), while
the pass verdict uses the unrounded values: it passes exactly when the exact
absolute difference is at most the tolerance — in particular a difference
exactly equal to the tolerance passes, and validating a value against itself
passes exactly when the tolerance is non-negative. -/
theorem C5_validacion_tolerancia (obtenido esperado tolerancia : ℚ) :
    (validar_valor_esperado obtenido esperado tolerancia).diferencia =
      round2py |obtenido - esperado| ∧
    (validar_valor_esperado obtenido esperado tolerancia).desviacion_pct =
      round2py (if esperado ≠ 0 then |obtenido - esperado| / esperado * 100 else 0) ∧
    ((validar_valor_esperado obtenido esperado tolerancia).valido = true ↔
      |obtenido - esperado| ≤ tolerancia) ∧
    ((validar_valor_esperado obtenido obtenido tolerancia).valido = true ↔
      0 ≤ tolerancia) := by
  refine ⟨rfl, rfl, ⟨of_decide_eq_true, decide_eq_true⟩, ?_⟩
  show decide (|obtenido - obtenido| ≤ tolerancia) = true ↔ 0 ≤ tolerancia
  rw [sub_self, abs_zero]
  exact ⟨of_decide_eq_true, decide_eq_true⟩

/-- C6: range-mode validation passes exactly when the observed value lies in
the inclusive interval, and for a well-formed range both endpoints pass. -/
theorem C6_validacion_rango (obtenido rango_min rango_max : ℚ) :
    ((validar_rango obtenido rango_min rango_max).valido = true ↔
      rango_min ≤ obtenido ∧ obtenido ≤ rango_max) ∧
    (rango_min ≤ rango_max →
      (validar_rango rango_min rango_min rango_max).valido = true) ∧
    (rango_min ≤ rango_max →
      (validar_rango rango_max rango_min rango_max).valido = true) := by
  refine ⟨⟨of_decide_eq_true, decide_eq_true⟩, ?_, ?_⟩
  · intro h
    exact decide_eq_true ⟨le_refl _, h⟩
  · intro h
    exact decide_eq_true ⟨h, le_refl _⟩

/-- C6 witness: both endpoints of the concrete range [0, 1] pass. -/
theorem C6_validacion_rango_witness :
    (0 : ℚ) ≤ 1 ∧ (validar_rango (0 : ℚ) 0 1).valido = true ∧
      (validar_rango (1 : ℚ) 0 1).valido = true :=
  ⟨by norm_num, (C6_validacion_rango 0 0 1).2.1 (by norm_num),
    (C6_validacion_rango 0 0 1).2.2 (by norm_num)⟩

lemma strand_opcion (f : Feature) :
    ((if f.strand = some 1 then "+" else "-") = "+" ↔ f.strand = some 1) ∧
    ((if f.strand = some 1 then "+" else "-") = "+" ∨
      (if f.strand = some 1 then "+" else "-") = "-") := by
  by_cases hs : f.strand = some 1
  · rw [if_pos hs]
    exact ⟨iff_of_true rfl hs, Or.inl rfl⟩
  · rw [if_neg hs]
    exact ⟨iff_of_false (by decide) hs, Or.inr rfl⟩

/-- C10: in every extractor the recorded strand field is the plus sign exactly
when the feature strand equals +1 and the minus sign in every other case
(minus one, zero, or absent), so each emitted gene or CDS record carries a
strand field that is either the plus or the minus sign. -/
theorem C10_campo_strand :
    (∀ f c, procesar_cds f = some c →
      ((c.strand = "+" ↔ f.strand = some 1) ∧ (c.strand = "+" ∨ c.strand = "-"))) ∧
    (∀ f g, procesar_gene f = some g →
      ((g.strand = "+" ↔ f.strand = some 1) ∧ (g.strand = "+" ∨ g.strand = "-"))) ∧
    (∀ seq f c, procesar_cds_stats seq f = some c →
      ((c.strand = "+" ↔ f.strand = some 1) ∧ (c.strand = "+" ∨ c.strand = "-"))) ∧
    (∀ record : SeqRecord,
      (∀ c ∈ extraer_info_genes_completa record, c.strand = "+" ∨ c.strand = "-") ∧
      (∀ g ∈ (extraer_genes_completos record).genes, g.strand = "+" ∨ g.strand = "-") ∧
      (∀ c ∈ (extraer_genes_completos record).cds, c.strand = "+" ∨ c.strand = "-")) := by
  have hcds : ∀ f c, procesar_cds f = some c →
      c.strand = if f.strand = some 1 then "+" else "-" := by
    intro f c h
    unfold procesar_cds at h
    by_cases ht : f.tipo = "CDS"
    · rw [if_pos ht] at h
      injection h with h
      rw [← h]
    · rw [if_neg ht] at h
      exact absurd h (by simp)
  have hgene : ∀ f g, procesar_gene f = some g →
      g.strand = if f.strand = some 1 then "+" else "-" := by
    intro f g h
    unfold procesar_gene at h
    by_cases ht : f.tipo = "gene"
    · rw [if_pos ht] at h
      injection h with h
      rw [← h]
    · rw [if_neg ht] at h
      exact absurd h (by simp)
  have hstats : ∀ seq f c, procesar_cds_stats seq f = some c →
      c.strand = if f.strand = some 1 then "+" else "-" := by
    intro seq f c h
    unfold procesar_cds_stats at h
    by_cases ht : f.tipo = "CDS"
    · rw [if_pos ht] at h
      injection h with h
      rw [← h]
    · rw [if_neg ht] at h
      exact absurd h (by simp)
  refine ⟨?_, ?_, ?_, ?_⟩
  · intro f c h
    rw [hcds f c h]
    exact strand_opcion f
  · intro f g h
    rw [hgene f g h]
    exact strand_opcion f
  · intro seq f c h
    rw [hstats seq f c h]
    exact strand_opcion f
  · intro record
    refine ⟨?_, ?_, ?_⟩
    · intro c hc
      obtain ⟨f, hf, hfc⟩ := List.mem_filterMap.mp hc
      rw [hcds f c hfc]
      exact (strand_opcion f).2
    · intro g hg
      obtain ⟨f, hf, hfg⟩ := List.mem_filterMap.mp hg
      rw [hgene f g hfg]
      exact (strand_opcion f).2
    · intro c hc
      obtain ⟨f, hf, hfc⟩ := List.mem_filterMap.mp hc
      rw [hstats record.seq f c hfc]
      exact (strand_opcion f).2

/-- C10 witness: a CDS feature with absent strand is emitted with the minus
sign, and its strand field equals the plus sign only if the feature strand
were +1. -/
theorem C10_campo_strand_witness :
    (cds_sin_strand.strand = "+" ↔ feature_sin_strand.strand = some 1) ∧
    (cds_sin_strand.strand = "+" ∨ cds_sin_strand.strand = "-") :=
  C10_campo_strand.1 feature_sin_strand cds_sin_strand rfl

lemma avanzadas_media (longitudes : List ℤ) (h : longitudes ≠ []) :
    media_of (calcular_estadisticas_avanzadas longitudes) =
      media (longitudes.map (fun x => (x : ℚ))) := by
  simp [calcular_estadisticas_avanzadas, media_of, h, Option.elim]

lemma avanzadas_std (longitudes : List ℤ) (h : longitudes ≠ []) :
    std_of (calcular_estadisticas_avanzadas longitudes) =
      Real.sqrt (varianza (longitudes.map (fun x => (x : ℚ)))) := by
  simp [calcular_estadisticas_avanzadas, std_of, h, Option.elim]

lemma avanzadas_cv (longitudes : List ℤ) (h : longitudes ≠ []) :
    cv_of (calcular_estadisticas_avanzadas longitudes) =
      if 0 < media (longitudes.map (fun x => (x : ℚ))) then
        Real.sqrt (varianza (longitudes.map (fun x => (x : ℚ)))) /
          ((media (longitudes.map (fun x => (x : ℚ))) : ℚ) : ℝ) * 100
      else 0 := by
  simp [calcular_estadisticas_avanzadas, cv_of, h, Option.elim]

/-- C9 counterexample: on the list [-1, -3] the mean is -2 and the standard
deviation is 1, so stddev/mean*100 is -50, yet the code reports coefficient
of variation 0 because its guard is mean > 0, not mean = 0. -/
theorem C9_cv_media_negativa :
    cv_of (calcular_estadisticas_avanzadas [-1, -3]) = 0 ∧
    std_of (calcular_estadisticas_avanzadas [-1, -3]) /
      ((media_of (calcular_estadisticas_avanzadas [-1, -3]) : ℚ) : ℝ) * 100 = -50 ∧
    cv_of (calcular_estadisticas_avanzadas [-1, -3]) ≠
      std_of (calcular_estadisticas_avanzadas [-1, -3]) /
        ((media_of (calcular_estadisticas_avanzadas [-1, -3]) : ℚ) : ℝ) * 100 := by
  have hne : ([-1, -3] : List ℤ) ≠ [] := by simp
  have harr : (([-1, -3] : List ℤ).map (fun x => (x : ℚ))) = [(-1 : ℚ), -3] := by
    norm_num
  have hmedia : media [(-1 : ℚ), -3] = -2 := by
    norm_num [media]
  have hvar : varianza [(-1 : ℚ), -3] = 1 := by
    norm_num [varianza, media]
  have h1 : cv_of (calcular_estadisticas_avanzadas [-1, -3]) = 0 := by
    rw [avanzadas_cv _ hne, harr, hmedia]
    norm_num
  have h2 : std_of (calcular_estadisticas_avanzadas [-1, -3]) /
      ((media_of (calcular_estadisticas_avanzadas [-1, -3]) : ℚ) : ℝ) * 100 = -50 := by
    rw [avanzadas_std _ hne, avanzadas_media _ hne, harr, hmedia, hvar]
    push_cast
    rw [Real.sqrt_one]
    norm_num
  exact ⟨h1, h2, by rw [h1, h2]; norm_num⟩

/-- C9 (amended): the advanced statistics computation reports coefficient of
variation stddev/mean*100 whenever the mean is strictly positive, and
reports exactly 0 (not NaN, not an error) whenever the mean is zero or
negative — the guard in the source is mean > 0, not mean different from 0. -/
theorem C9_coef_variacion (longitudes : List ℤ) (h : longitudes ≠ []) :
    (0 < media_of (calcular_estadisticas_avanzadas longitudes) →
      cv_of (calcular_estadisticas_avanzadas longitudes) =
        std_of (calcular_estadisticas_avanzadas longitudes) /
          ((media_of (calcular_estadisticas_avanzadas longitudes) : ℚ) : ℝ) * 100) ∧
    (media_of (calcular_estadisticas_avanzadas longitudes) ≤ 0 →
      cv_of (calcular_estadisticas_avanzadas longitudes) = 0) := by
  rw [avanzadas_cv _ h, avanzadas_media _ h, avanzadas_std _ h]
  constructor
  · intro h0
    rw [if_pos h0]
  · intro h0
    rw [if_neg (not_lt.mpr h0)]

/-- C9 witness: on the singleton list [2] the mean is 2 > 0 and the theorem
yields the stddev/mean*100 formula. -/
theorem C9_coef_variacion_witness :
    ([2] : List ℤ) ≠ [] ∧
    0 < media_of (calcular_estadisticas_avanzadas [2]) ∧
    cv_of (calcular_estadisticas_avanzadas [2]) =
      std_of (calcular_estadisticas_avanzadas [2]) /
        ((media_of (calcular_estadisticas_avanzadas [2]) : ℚ) : ℝ) * 100 := by
  have hne : ([2] : List ℤ) ≠ [] := by simp
  have hm : 0 < media_of (calcular_estadisticas_avanzadas [2]) := by
    rw [avanzadas_media _ hne]
    norm_num [media]
  exact ⟨hne, hm, (C9_coef_variacion [2] hne).1 hm⟩

lemma categorizar_filtros (l : List CDSInfo) :
    (categorizar_por_tamano l).muy_pequenos =
      l.filter (fun c => decide (c.longitud_nt < 300)) ∧
    (categorizar_por_tamano l).pequenos =
      l.filter (fun c => decide (300 ≤ c.longitud_nt ∧ c.longitud_nt < 600)) ∧
    (categorizar_por_tamano l).medianos =
      l.filter (fun c => decide (600 ≤ c.longitud_nt ∧ c.longitud_nt < 1200)) ∧
    (categorizar_por_tamano l).grandes =
      l.filter (fun c => decide (1200 ≤ c.longitud_nt ∧ c.longitud_nt < 2400)) ∧
    (categorizar_por_tamano l).muy_grandes =
      l.filter (fun c => decide (2400 ≤ c.longitud_nt)) := by
  induction l with
  | nil => exact ⟨rfl, rfl, rfl, rfl, rfl⟩
  | cons d resto ih =>
    obtain ⟨ih1, ih2, ih3, ih4, ih5⟩ := ih
    refine ⟨?_, ?_, ?_, ?_, ?_⟩ <;>
      · simp only [categorizar_por_tamano, List.filter_cons]
        split_ifs <;> simp_all <;> omega

lemma categorizar_total (l : List CDSInfo) :
    (categorizar_por_tamano l).muy_pequenos.length +
      (categorizar_por_tamano l).pequenos.length +
      (categorizar_por_tamano l).medianos.length +
      (categorizar_por_tamano l).grandes.length +
      (categorizar_por_tamano l).muy_grandes.length = l.length := by
  induction l with
  | nil => rfl
  | cons d resto ih =>
    by_cases h1 : d.longitud_nt < 300
    · simp only [categorizar_por_tamano, h1, if_true, List.length_cons]
      simp only [List.length_cons] at *
      omega
    · by_cases h2 : d.longitud_nt < 600
      · simp only [categorizar_por_tamano, h1, h2, if_true, if_false, List.length_cons]
        simp only [List.length_cons] at *
        omega
      · by_cases h3 : d.longitud_nt < 1200
        · simp only [categorizar_por_tamano, h1, h2, h3, if_true, if_false, List.length_cons]
          simp only [List.length_cons] at *
          omega
        · by_cases h4 : d.longitud_nt < 2400
          · simp only [categorizar_por_tamano, h1, h2, h3, h4, if_true, if_false,
              List.length_cons]
            simp only [List.length_cons] at *
            omega
          · simp only [categorizar_por_tamano, h1, h2, h3, h4, if_true, if_false,
              List.length_cons]
            simp only [List.length_cons] at *
            omega

/-- C4: over records with non-negative nucleotide lengths the categorizer
realizes the five half-open lower-inclusive bands exactly — each record lies
in precisely the band of its length, a record of length exactly 300 falls in
the second band and not the first, and the five band counts sum to the total
record count. -/
theorem C4_categorizador_particion (l : List CDSInfo)
    (hl : ∀ c ∈ l, 0 ≤ c.longitud_nt) :
    ((categorizar_por_tamano l).muy_pequenos.length +
      (categorizar_por_tamano l).pequenos.length +
      (categorizar_por_tamano l).medianos.length +
      (categorizar_por_tamano l).grandes.length +
      (categorizar_por_tamano l).muy_grandes.length = l.length) ∧
    (∀ c, c ∈ (categorizar_por_tamano l).muy_pequenos ↔
      c ∈ l ∧ 0 ≤ c.longitud_nt ∧ c.longitud_nt < 300) ∧
    (∀ c, c ∈ (categorizar_por_tamano l).pequenos ↔
      c ∈ l ∧ 300 ≤ c.longitud_nt ∧ c.longitud_nt < 600) ∧
    (∀ c, c ∈ (categorizar_por_tamano l).medianos ↔
      c ∈ l ∧ 600 ≤ c.longitud_nt ∧ c.longitud_nt < 1200) ∧
    (∀ c, c ∈ (categorizar_por_tamano l).grandes ↔
      c ∈ l ∧ 1200 ≤ c.longitud_nt ∧ c.longitud_nt < 2400) ∧
    (∀ c, c ∈ (categorizar_por_tamano l).muy_grandes ↔
      c ∈ l ∧ 2400 ≤ c.longitud_nt) ∧
    (∀ c ∈ l, c.longitud_nt = 300 →
      c ∈ (categorizar_por_tamano l).pequenos ∧
        c ∉ (categorizar_por_tamano l).muy_pequenos) := by
  obtain ⟨e1, e2, e3, e4, e5⟩ := categorizar_filtros l
  refine ⟨categorizar_total l, ?_, ?_, ?_, ?_, ?_, ?_⟩
  · intro c
    rw [e1, List.mem_filter]
    constructor
    · rintro ⟨hc, hd⟩
      exact ⟨hc, hl c hc, of_decide_eq_true hd⟩
    · rintro ⟨hc, _, hd⟩
      exact ⟨hc, decide_eq_true hd⟩
  · intro c
    rw [e2, List.mem_filter]
    simp [decide_eq_true_eq, and_assoc]
  · intro c
    rw [e3, List.mem_filter]
    simp [decide_eq_true_eq, and_assoc]
  · intro c
    rw [e4, List.mem_filter]
    simp [decide_eq_true_eq, and_assoc]
  · intro c
    rw [e5, List.mem_filter]
    simp [decide_eq_true_eq]
  · intro c hc h300
    constructor
    · rw [e2, List.mem_filter]
      exact ⟨hc, decide_eq_true (by omega)⟩
    · rw [e1, List.mem_filter]
      rintro ⟨_, hd⟩
      have := of_decide_eq_true hd
      omega

/-- C4 witness: the nine-record synthetic scenario of the specification has
non-negative lengths and its five band counts sum to nine. -/
theorem C4_categorizador_particion_witness :
    (∀ c ∈ lista_cds_prueba, (0 : ℤ) ≤ c.longitud_nt) ∧
    (categorizar_por_tamano lista_cds_prueba).muy_pequenos.length +
      (categorizar_por_tamano lista_cds_prueba).pequenos.length +
      (categorizar_por_tamano lista_cds_prueba).medianos.length +
      (categorizar_por_tamano lista_cds_prueba).grandes.length +
      (categorizar_por_tamano lista_cds_prueba).muy_grandes.length =
        lista_cds_prueba.length :=
  ⟨by decide, (C4_categorizador_particion lista_cds_prueba (by decide)).1⟩

/-- C7: for every non-empty sequence and multiplier k at least 0 the outlier
identifier succeeds and returns Q1 and Q3 as the 25th and 75th percentiles,
IQR = Q3 - Q1, fences Q1 - k*IQR and Q3 + k*IQR, counts exactly the values
strictly below the lower fence and strictly above the upper fence (a value
equal to a fence is never counted), reports their sum as the total, and at
k = 0 counts exactly the values strictly outside [Q1, Q3].  The embedded
function is pure, mirroring the source, which never writes to its input. -/
theorem C7_outliers_iqr_especificacion (valores : List ℚ) (k : ℚ)
    (hv : valores ≠ []) (hk : 0 ≤ k) :
    ∃ r : InfoOutliers, identificar_outliers_iqr valores k = some r ∧
      r.q1 = percentil valores 25 ∧
      r.q3 = percentil valores 75 ∧
      r.iqr = r.q3 - r.q1 ∧
      r.limite_inferior = r.q1 - k * r.iqr ∧
      r.limite_superior = r.q3 + k * r.iqr ∧
      r.num_outliers_bajos = valores.countP (fun x => decide (x < r.limite_inferior)) ∧
      r.num_outliers_altos = valores.countP (fun x => decide (x > r.limite_superior)) ∧
      r.total_outliers = r.num_outliers_bajos + r.num_outliers_altos ∧
      (k = 0 → r.total_outliers =
        valores.countP (fun x => decide (x < r.q1)) +
          valores.countP (fun x => decide (x > r.q3))) := by
  unfold identificar_outliers_iqr
  rw [if_neg hv]
  refine ⟨_, rfl, rfl, rfl, rfl, rfl, rfl, rfl, rfl, rfl, ?_⟩
  intro hk0
  subst hk0
  simp

/-- C7 witness: the theorem applied to the list [1, 2, 3, 4] with the
degenerate multiplier k = 0. -/
theorem C7_outliers_iqr_especificacion_witness :
    ([1, 2, 3, 4] : List ℚ) ≠ [] ∧ (0 : ℚ) ≤ 0 ∧
    (∃ r : InfoOutliers, identificar_outliers_iqr [1, 2, 3, 4] 0 = some r ∧
      r.q1 = percentil [1, 2, 3, 4] 25 ∧
      r.q3 = percentil [1, 2, 3, 4] 75 ∧
      r.iqr = r.q3 - r.q1 ∧
      r.limite_inferior = r.q1 - 0 * r.iqr ∧
      r.limite_superior = r.q3 + 0 * r.iqr ∧
      r.num_outliers_bajos =
        List.countP (fun x => decide (x < r.limite_inferior)) [1, 2, 3, 4] ∧
      r.num_outliers_altos =
        List.countP (fun x => decide (x > r.limite_superior)) [1, 2, 3, 4] ∧
      r.total_outliers = r.num_outliers_bajos + r.num_outliers_altos ∧
      ((0 : ℚ) = 0 → r.total_outliers =
        List.countP (fun x => decide (x < r.q1)) [1, 2, 3, 4] +
          List.countP (fun x => decide (x > r.q3)) [1, 2, 3, 4])) :=
  ⟨by simp, le_refl 0,
    C7_outliers_iqr_especificacion [1, 2, 3, 4] 0 (by simp) (le_refl 0)⟩

/-- C8: for every non-empty sequence and non-negative multipliers k1 at most
k2, the total outlier count at k2 is at most the count at k1 — widening the
fences never adds outliers. -/
theorem C8_outliers_monotonos (valores : List ℚ) (k1 k2 : ℚ)
    (hv : valores ≠ []) (h1 : 0 ≤ k1) (h12 : k1 ≤ k2) :
    total_outliers_en valores k2 ≤ total_outliers_en valores k1 := by
  have hq := q1_le_q3 valores hv
  have hiqr : (0 : ℚ) ≤ percentil valores 75 - percentil valores 25 := by linarith
  have hmul : k1 * (percentil valores 75 - percentil valores 25) ≤
      k2 * (percentil valores 75 - percentil valores 25) :=
    mul_le_mul_of_nonneg_right h12 hiqr
  unfold total_outliers_en identificar_outliers_iqr
  rw [if_neg hv, if_neg hv]
  simp only [Option.elim]
  refine Nat.add_le_add ?_ ?_
  · refine List.countP_mono_left (fun x hx hpx => decide_eq_true ?_)
    have hxlt := of_decide_eq_true hpx
    have hlow : percentil valores 25 - k2 * (percentil valores 75 - percentil valores 25) ≤
        percentil valores 25 - k1 * (percentil valores 75 - percentil valores 25) := by
      linarith
    linarith
  · refine List.countP_mono_left (fun x hx hpx => decide_eq_true ?_)
    have hxgt := of_decide_eq_true hpx
    have hupp : percentil valores 75 + k1 * (percentil valores 75 - percentil valores 25) ≤
        percentil valores 75 + k2 * (percentil valores 75 - percentil valores 25) := by
      linarith
    exact lt_of_le_of_lt hupp hxgt

/-- C8 witness: on the list [1, 2, 3, 4] the count at multiplier 1 is at most
the count at multiplier 0. -/
theorem C8_outliers_monotonos_witness :
    ([1, 2, 3, 4] : List ℚ) ≠ [] ∧ (0 : ℚ) ≤ 0 ∧ (0 : ℚ) ≤ 1 ∧
    total_outliers_en [1, 2, 3, 4] 1 ≤ total_outliers_en [1, 2, 3, 4] 0 :=
  ⟨by simp, le_refl 0, by norm_num,
    C8_outliers_monotonos [1, 2, 3, 4] 0 1 (by simp) (le_refl 0) (by norm_num)⟩
